import Mathlib

/-!
Verification of the per-source capture engine of the `camers_display`
repository: the `CameraThread` capture loop, its bounded frame queue,
the `CameraManager` supervisor and the `ConfigManager` boundary
(`src/core/camera_manager.py`, `src/core/config_manager.py`).

The capture loop is embedded as a state machine: `CameraThread` is the
record of the fields of the thread object (plus the local `read_failures`
counter of `run`, and ghost observation fields `opened`, `released`,
`exited`, `success_reads` recording what the loop has done), `runStart`
is the part of `run` before the `while self.running` loop, and `step`
processes one loop iteration event (a successful read, a failed read,
an exception during read) or an external action (a consumer
`get_frame` pop, a `stop()` signal).  Frames are abstracted to natural
numbers; cv2 calls are status-returning, as in the cv2 API, so the
outcome of the one open attempt is the boolean `openOk` input.
-/

namespace CamersDisplay

/-- A decoded frame, abstracted to an identifier. -/
abbrev Frame := Nat

/-- One slot of the persisted configuration: fields `enabled`,
`source_type` (the string `rtsp` or `local`), `url`, `device`, `name`. -/
structure CameraConfig where
  enabled : Bool
  source_type : String
  url : String
  device : Nat
  name : String
deriving DecidableEq

/-- The default single-camera configuration returned by
`ConfigManager.get_camera_config` for an out-of-range index, and used
for each slot of `get_default_config`. -/
def defaultCameraConfig (i : Nat) : CameraConfig :=
  { enabled := false, source_type := "rtsp", url := "", device := 0,
    name := "Camera " ++ toString (i + 1) }

/-- Model of `ConfigManager.get_camera_config`: the stored slot when the index is
in range, otherwise the disabled default. -/
def get_camera_config (cams : List CameraConfig) (i : Nat) : CameraConfig :=
  match cams[i]? with
  | some c => c
  | none => defaultCameraConfig i

/-- The state of one `CameraThread`: its Python fields (`camera_index`,
`config`, `running`, `connected`, `frame_queue` front-first, `latest_frame`),
the `read_failures` local of `run`, and ghost fields: `opened` (the one
`cv2.VideoCapture` open succeeded), `released` (`cap.release()` was called),
`exited` (`run` returned), `success_reads` (number of successful reads since
the open). -/
structure CameraThread where
  camera_index : Nat
  config : CameraConfig
  running : Bool
  connected : Bool
  frame_queue : List Frame
  latest_frame : Option Frame
  read_failures : Nat
  opened : Bool
  released : Bool
  exited : Bool
  success_reads : Nat
deriving DecidableEq

/-- Constructor `CameraThread.__init__`: all flags down, empty queue, no frame yet. -/
def CameraThread.init (i : Nat) (cfg : CameraConfig) : CameraThread :=
  { camera_index := i, config := cfg, running := false, connected := false,
    frame_queue := [], latest_frame := none, read_failures := 0,
    opened := false, released := false, exited := false, success_reads := 0 }

/-- The queue insertion of `CameraThread.run`: a non-blocking put into the
`maxsize=2` queue; on `queue.Full` the oldest entry is removed and the put
retried (single producer, so the retry succeeds). -/
def pushFrame (q : List Frame) (f : Frame) : List Frame :=
  if q.length < 2 then q ++ [f] else q.tail ++ [f]

/-- Consumer pop `CameraThread.get_frame`: a non-blocking get from the queue (returning
its oldest entry) and, on `queue.Empty`, the fall-back to `latest_frame`.
Returns the frame (or `none`) plus the thread state after the pop. -/
def CameraThread.get_frame (s : CameraThread) : Option Frame × CameraThread :=
  match s.frame_queue with
  | [] => (s.latest_frame, s)
  | f :: rest => (some f, { s with frame_queue := rest })

/-- One event a live thread state can process: one read-loop iteration
(reading succeeded with a frame, `cap.read` returned `ret = False`, or the
read raised), a consumer pop, or the supervisor setting `running = False`. -/
inductive LoopEvent where
  | readOk (f : Frame)
  | readFail
  | readErr
  | pop
  | setStop
deriving DecidableEq

/-- The epilogue of `run` after the while loop: `cap.release()` then
`self.connected = False`. -/
def cleanup (s : CameraThread) : CameraThread :=
  { s with released := true, connected := false, exited := true }

/-- One step of the thread: loop-iteration events follow the body of the
`while self.running` loop of `CameraThread.run` (a failed read increments
`read_failures` and breaks out past 5; a successful read resets the counter,
stores `latest_frame` and pushes into the queue; an exception only pauses);
when `running` is false the loop exits through the epilogue; `pop` and
`setStop` model the supervisor-side calls. -/
def step (s : CameraThread) (ev : LoopEvent) : CameraThread :=
  match ev with
  | .pop => s.get_frame.2
  | .setStop => { s with running := false }
  | .readOk f =>
      if s.exited then s
      else if s.running then
        { s with read_failures := 0, latest_frame := some f,
                 frame_queue := pushFrame s.frame_queue f,
                 success_reads := s.success_reads + 1 }
      else cleanup s
  | .readFail =>
      if s.exited then s
      else if s.running then
        if s.read_failures + 1 > 5 then
          cleanup { s with read_failures := s.read_failures + 1 }
        else { s with read_failures := s.read_failures + 1 }
      else cleanup s
  | .readErr =>
      if s.exited then s
      else if s.running then s
      else cleanup s

/-- The part of `CameraThread.run` before the read loop: set `running`,
return early when the camera is disabled or an RTSP URL is empty, attempt
the one open, and on success set `connected = True`. -/
def runStart (i : Nat) (cfg : CameraConfig) (openOk : Bool) : CameraThread :=
  let s := { CameraThread.init i cfg with running := true }
  if cfg.enabled then
    if cfg.source_type = "rtsp" ∧ cfg.url = "" then { s with exited := true }
    else if openOk then { s with opened := true, connected := true }
    else { s with exited := true }
  else { s with exited := true }

/-- Fold a list of events over a thread state. -/
def runFrom (s : CameraThread) (evs : List LoopEvent) : CameraThread :=
  evs.foldl step s

/-- A whole thread execution: the prologue of `run` followed by a trace of
events. -/
def runThread (i : Nat) (cfg : CameraConfig) (openOk : Bool)
    (evs : List LoopEvent) : CameraThread :=
  runFrom (runStart i cfg openOk) evs

/-- Association-list lookup keyed by camera index, the model of the
`camera_threads` dictionary. -/
def lookupIdx {β : Type _} : List (Nat × β) → Nat → Option β
  | [], _ => none
  | (k, v) :: rest, i => if i = k then some v else lookupIdx rest i

/-- The `CameraManager` supervisor: its dictionary of threads. -/
structure CameraManager where
  camera_threads : List (Nat × CameraThread)

/-- Supervisor accessor `CameraManager.get_frame`: the result of the own `get_frame()` of the thread, if a thread
exists for the index and is connected, else `None`. -/
def CameraManager.get_frame (m : CameraManager) (i : Nat) : Option Frame :=
  match lookupIdx m.camera_threads i with
  | some t => if t.connected then t.get_frame.1 else none
  | none => none

/-- Connectivity accessor `CameraManager.is_camera_connected`. -/
def CameraManager.is_camera_connected (m : CameraManager) (i : Nat) : Bool :=
  match lookupIdx m.camera_threads i with
  | some t => t.connected
  | none => false

/-- Stop signal `CameraThread.stop`: clear `running` and join (cooperative signal). -/
def CameraThread.stop (t : CameraThread) : CameraThread :=
  { t with running := false }

/-- Teardown `CameraManager.stop_all_cameras`: stop every thread in the dictionary. -/
def stop_all_cameras (m : CameraManager) : List (Nat × CameraThread) :=
  m.camera_threads.map (fun p => (p.1, p.2.stop))

/-- Reload `CameraManager.reload_config`: stop all threads, clear the dictionary,
then for each index 0..47 start a fresh thread when the stored configuration
is enabled.  Returns the rebuilt manager and the stopped old threads. -/
def reload_config (m : CameraManager) (cams : List CameraConfig) :
    CameraManager × List (Nat × CameraThread) :=
  let stopped := stop_all_cameras m
  let threads := (List.range 48).filterMap (fun i =>
    if (get_camera_config cams i).enabled then
      some (i, CameraThread.init i (get_camera_config cams i))
    else none)
  (⟨threads⟩, stopped)

/-- A well-formed, enabled RTSP configuration used as a concrete input in
witnesses. -/
def okCfg : CameraConfig :=
  { enabled := true, source_type := "rtsp", url := "rtsp://host/stream",
    device := 0, name := "Camera 1" }

/-- Claim C1: on every failed read of a running loop the consecutive-failure
counter is incremented; six consecutive failures from a freshly-successful
state disconnect, release and exit the loop, while five leave it connected
with the counter at 5, and a subsequent successful read resets the counter
to 0 and stores the frame. -/
theorem claim1_read_failure_policy (s : CameraThread)
    (hrun : s.running = true) (hex : s.exited = false)
    (hcon : s.connected = true) (hrf : s.read_failures = 0)
    (hrel : s.released = false) :
    (∀ t : CameraThread, t.running = true → t.exited = false →
      (step t LoopEvent.readFail).read_failures = t.read_failures + 1) ∧
    ((runFrom s (List.replicate 6 LoopEvent.readFail)).connected = false ∧
     (runFrom s (List.replicate 6 LoopEvent.readFail)).released = true ∧
     (runFrom s (List.replicate 6 LoopEvent.readFail)).exited = true) ∧
    ((runFrom s (List.replicate 5 LoopEvent.readFail)).connected = true ∧
     (runFrom s (List.replicate 5 LoopEvent.readFail)).exited = false ∧
     (runFrom s (List.replicate 5 LoopEvent.readFail)).released = false ∧
     (runFrom s (List.replicate 5 LoopEvent.readFail)).read_failures = 5) ∧
    (∀ f : Frame,
      (step (runFrom s (List.replicate 5 LoopEvent.readFail))
        (LoopEvent.readOk f)).read_failures = 0 ∧
      (step (runFrom s (List.replicate 5 LoopEvent.readFail))
        (LoopEvent.readOk f)).connected = true ∧
      (step (runFrom s (List.replicate 5 LoopEvent.readFail))
        (LoopEvent.readOk f)).latest_frame = some f) := by
  obtain ⟨i, cfg, run, con, q, lf, rf, op, rel, ex, sr⟩ := s
  simp only at hrun hex hcon hrf hrel
  subst hrun hex hcon hrf hrel
  refine ⟨?_, ?_, ?_⟩
  · intro t ht hext
    simp only [step, ht, hext, if_true, if_false, Bool.false_eq_true]
    split
    · simp [cleanup]
    · simp
  · constructor
    · simp [runFrom, step, cleanup, List.replicate]
    · constructor <;> simp [runFrom, step, cleanup, List.replicate]
  · simp [runFrom, step, cleanup, List.replicate]

/-- Concrete instantiation of the failure-policy theorem at a freshly
connected RTSP thread. -/
theorem claim1_read_failure_policy_witness :
    (runFrom (runStart 0 okCfg true) (List.replicate 6 LoopEvent.readFail)).connected
      = false ∧
    (runFrom (runStart 0 okCfg true) (List.replicate 5 LoopEvent.readFail)).connected
      = true :=
  have h := claim1_read_failure_policy (runStart 0 okCfg true)
    (by decide) (by decide) (by decide) (by decide) (by decide)
  ⟨h.2.1.1, h.2.2.1.1⟩

/-- The queue insertion never grows the queue past two entries. -/
theorem pushFrame_length_le (q : List Frame) (f : Frame) (h : q.length ≤ 2) :
    (pushFrame q f).length ≤ 2 := by
  match q with
  | [] => simp [pushFrame]
  | [a] => simp [pushFrame]
  | [a, b] => simp [pushFrame]
  | a :: b :: c :: t =>
      exfalso
      simp only [List.length_cons] at h
      omega

/-- Every event preserves the two-entry bound on the queue. -/
theorem step_queue_length_le (s : CameraThread) (ev : LoopEvent)
    (h : s.frame_queue.length ≤ 2) : (step s ev).frame_queue.length ≤ 2 := by
  obtain ⟨i, cfg, run, con, q, lf, rf, op, rel, ex, sr⟩ := s
  simp only at h
  cases ev with
  | pop =>
      cases q with
      | nil => simpa [step, CameraThread.get_frame] using h
      | cons a t =>
          simp only [step, CameraThread.get_frame, List.length_cons] at h ⊢
          omega
  | setStop => simpa [step] using h
  | readOk f =>
      cases ex <;> cases run <;>
        simp only [step, cleanup, Bool.false_eq_true, if_true, if_false,
          ite_true, ite_false] <;>
        first
          | simpa using h
          | exact pushFrame_length_le q f h
  | readFail =>
      cases ex <;> cases run <;>
        simp only [step, cleanup, Bool.false_eq_true, if_true, if_false,
          ite_true, ite_false] <;>
        first
          | simpa using h
          | (split <;> simpa [cleanup] using h)
  | readErr =>
      cases ex <;> cases run <;>
        simp only [step, cleanup, Bool.false_eq_true, if_true, if_false,
          ite_true, ite_false] <;> simpa using h

/-- The two-entry bound is preserved along any event trace. -/
theorem runFrom_queue_length_le (evs : List LoopEvent) (s : CameraThread)
    (h : s.frame_queue.length ≤ 2) :
    (runFrom s evs).frame_queue.length ≤ 2 := by
  induction evs generalizing s with
  | nil => exact h
  | cons ev rest ih =>
      exact ih (step s ev) (step_queue_length_le s ev h)

/-- The prologue of `run` leaves the queue empty. -/
theorem runStart_frame_queue (i : Nat) (cfg : CameraConfig) (openOk : Bool) :
    (runStart i cfg openOk).frame_queue = [] := by
  unfold runStart CameraThread.init
  split
  · split
    · rfl
    · split <;> rfl
  · rfl

/-- Claim C4: along every execution the frame queue holds at most 2 frames;
a push into a full queue drops the oldest entry and appends the new frame,
and a push into a non-full queue simply appends. -/
theorem claim4_bounded_queue (i : Nat) (cfg : CameraConfig) (openOk : Bool)
    (evs : List LoopEvent) :
    (runThread i cfg openOk evs).frame_queue.length ≤ 2 ∧
    (∀ (q : List Frame) (f : Frame), q.length = 2 →
      pushFrame q f = q.tail ++ [f]) ∧
    (∀ (q : List Frame) (f : Frame), q.length < 2 →
      pushFrame q f = q ++ [f]) := by
  refine ⟨?_, ?_, ?_⟩
  · exact runFrom_queue_length_le evs _ (by rw [runStart_frame_queue]; simp)
  · intro q f hq
    unfold pushFrame
    rw [if_neg (by omega)]
  · intro q f hq
    unfold pushFrame
    rw [if_pos hq]

/-- Concrete instantiation of the bounded-queue theorem: three pushes keep
the queue within bound, and a full-queue push evicts the oldest frame. -/
theorem claim4_bounded_queue_witness :
    (runThread 0 okCfg true [LoopEvent.readOk 1, LoopEvent.readOk 2,
      LoopEvent.readOk 3]).frame_queue.length ≤ 2 ∧
    pushFrame [1, 2] 3 = [2, 3] :=
  ⟨(claim4_bounded_queue 0 okCfg true [LoopEvent.readOk 1, LoopEvent.readOk 2,
      LoopEvent.readOk 3]).1,
   (claim4_bounded_queue 0 okCfg true []).2.1 [1, 2] 3 (by decide)⟩

/-- No event ever clears `latest_frame` once it holds a frame. -/
theorem step_latest_ne_none (s : CameraThread) (ev : LoopEvent)
    (h : s.latest_frame ≠ none) : (step s ev).latest_frame ≠ none := by
  obtain ⟨i, cfg, run, con, q, lf, rf, op, rel, ex, sr⟩ := s
  simp only at h
  cases ev with
  | pop =>
      cases q with
      | nil => simpa [step, CameraThread.get_frame] using h
      | cons a t => simpa [step, CameraThread.get_frame] using h
  | setStop => simpa [step] using h
  | readOk f =>
      cases ex <;> cases run <;>
        simp only [step, cleanup, Bool.false_eq_true, if_true, if_false,
          ite_true, ite_false] <;> simpa using h
  | readFail =>
      cases ex <;> cases run <;>
        simp only [step, cleanup, Bool.false_eq_true, if_true, if_false,
          ite_true, ite_false] <;>
        first
          | simpa using h
          | (split <;> simpa [cleanup] using h)
  | readErr =>
      cases ex <;> cases run <;>
        simp only [step, cleanup, Bool.false_eq_true, if_true, if_false,
          ite_true, ite_false] <;> simpa using h

/-- Once set, `latest_frame` stays set along any event trace. -/
theorem runFrom_latest_ne_none (evs : List LoopEvent) (s : CameraThread)
    (h : s.latest_frame ≠ none) : (runFrom s evs).latest_frame ≠ none := by
  induction evs generalizing s with
  | nil => exact h
  | cons ev rest ih => exact ih (step s ev) (step_latest_ne_none s ev h)

/-- The pop `get_frame` returns a frame whenever `latest_frame` holds one. -/
theorem get_frame_fst_ne_none (s : CameraThread)
    (h : s.latest_frame ≠ none) : s.get_frame.1 ≠ none := by
  obtain ⟨i, cfg, run, con, q, lf, rf, op, rel, ex, sr⟩ := s
  cases q with
  | nil => simpa [CameraThread.get_frame] using h
  | cons a t => simp [CameraThread.get_frame]

/-- Claim C10: each successful read of a running loop stores its frame into
`latest_frame`; from any state whose `latest_frame` holds a frame, every
event trace leaves it holding a frame and `get_frame` returns a frame. -/
theorem claim10_latest_frame_persists (s : CameraThread)
    (h : s.latest_frame ≠ none) (evs : List LoopEvent) :
    (runFrom s evs).latest_frame ≠ none ∧
    (runFrom s evs).get_frame.1 ≠ none ∧
    (∀ (t : CameraThread) (f : Frame), t.running = true → t.exited = false →
      (step t (LoopEvent.readOk f)).latest_frame = some f) := by
  refine ⟨runFrom_latest_ne_none evs s h,
    get_frame_fst_ne_none _ (runFrom_latest_ne_none evs s h), ?_⟩
  intro t f hrun hex
  simp [step, hrun, hex]

/-- Concrete instantiation of the latest-frame persistence theorem: after one
successful read, draining the queue, a stop and a sustained-failure exit,
`get_frame` still returns the frame. -/
theorem claim10_latest_frame_persists_witness :
    (runFrom (step (runStart 0 okCfg true) (LoopEvent.readOk 7))
      [LoopEvent.pop, LoopEvent.readFail, LoopEvent.readFail, LoopEvent.readFail,
       LoopEvent.readFail, LoopEvent.readFail, LoopEvent.readFail,
       LoopEvent.pop]).get_frame.1 ≠ none :=
  (claim10_latest_frame_persists (step (runStart 0 okCfg true) (LoopEvent.readOk 7))
    (by decide)
    [LoopEvent.pop, LoopEvent.readFail, LoopEvent.readFail, LoopEvent.readFail,
     LoopEvent.readFail, LoopEvent.readFail, LoopEvent.readFail,
     LoopEvent.pop]).2.1

/-- Unfolding one event of a trace. -/
theorem runFrom_cons (s : CameraThread) (ev : LoopEvent) (evs : List LoopEvent) :
    runFrom s (ev :: evs) = runFrom (step s ev) evs := rfl

/-- A successful read of a running loop resets the failure counter, stores
the frame, pushes it into the queue and counts the success. -/
theorem step_readOk_fields (s : CameraThread) (f : Frame)
    (hrun : s.running = true) (hex : s.exited = false) :
    step s (LoopEvent.readOk f)
      = { s with read_failures := 0, latest_frame := some f,
                 frame_queue := pushFrame s.frame_queue f,
                 success_reads := s.success_reads + 1 } := by
  simp [step, hrun, hex]

/-- A trace of successful reads keeps the loop running and folds the pushes
over the queue. -/
theorem runFrom_readOk_preserve (fs : List Frame) (s : CameraThread)
    (hrun : s.running = true) (hex : s.exited = false) :
    (runFrom s (fs.map LoopEvent.readOk)).running = true ∧
    (runFrom s (fs.map LoopEvent.readOk)).exited = false ∧
    (runFrom s (fs.map LoopEvent.readOk)).frame_queue
      = fs.foldl pushFrame s.frame_queue := by
  induction fs generalizing s with
  | nil => exact ⟨hrun, hex, rfl⟩
  | cons g t ih =>
      have hstep := step_readOk_fields s g hrun hex
      rw [List.map_cons, runFrom_cons, hstep, List.foldl_cons]
      exact ih _ hrun hex

/-- Two consecutive pushes into a within-bound queue leave exactly those two
frames queued, oldest first. -/
theorem pushFrame_pushFrame (q : List Frame) (h : q.length ≤ 2) (g f : Frame) :
    pushFrame (pushFrame q g) f = [g, f] := by
  match q with
  | [] => simp [pushFrame]
  | [a] => simp [pushFrame]
  | [a, b] => simp [pushFrame]
  | a :: b :: c :: t =>
      exfalso
      simp only [List.length_cons] at h
      omega

/-- Claim C2 counterexample: after the producer pushes frame 1 then frame 2
with no draining, `get_frame` returns frame 1 — the oldest queued frame —
not the most recently pushed frame 2, which sits in `latest_frame`. -/
theorem claim2_pop_latest_counterexample :
    (runThread 0 okCfg true [LoopEvent.readOk 1, LoopEvent.readOk 2]).get_frame.1
      = some 1 ∧
    (runThread 0 okCfg true [LoopEvent.readOk 1, LoopEvent.readOk 2]).latest_frame
      = some 2 ∧
    (runThread 0 okCfg true [LoopEvent.readOk 1, LoopEvent.readOk 2]).get_frame.1
      ≠ some 2 := by
  decide

/-- Claim C2 amended: `get_frame` returns the oldest currently-queued frame
and falls back to `latest_frame` only when the queue is empty; under
sustained pushes with no draining the queue holds the last two pushed
frames, so `get_frame` returns the second-most-recently pushed frame while
`latest_frame` holds the most recent one. -/
theorem claim2_pop_latest_amended (s : CameraThread)
    (hrun : s.running = true) (hex : s.exited = false)
    (hq : s.frame_queue.length ≤ 2) (fs : List Frame) (g f : Frame) :
    ((runFrom s ((fs ++ [g, f]).map LoopEvent.readOk)).frame_queue = [g, f] ∧
     (runFrom s ((fs ++ [g, f]).map LoopEvent.readOk)).get_frame.1 = some g ∧
     (runFrom s ((fs ++ [g, f]).map LoopEvent.readOk)).latest_frame = some f) ∧
    (∀ t : CameraThread, t.frame_queue = [] → t.get_frame.1 = t.latest_frame) := by
  constructor
  · have hmap : (fs ++ [g, f]).map LoopEvent.readOk
        = fs.map LoopEvent.readOk ++ [LoopEvent.readOk g, LoopEvent.readOk f] := by
      simp
    have hsplit :
        runFrom s ((fs ++ [g, f]).map LoopEvent.readOk)
          = runFrom (runFrom s (fs.map LoopEvent.readOk))
              [LoopEvent.readOk g, LoopEvent.readOk f] := by
      rw [hmap]
      simp [runFrom, List.foldl_append]
    obtain ⟨h1run, h1ex, _⟩ := runFrom_readOk_preserve fs s hrun hex
    have h1len : (runFrom s (fs.map LoopEvent.readOk)).frame_queue.length ≤ 2 :=
      runFrom_queue_length_le _ s hq
    have e1 := step_readOk_fields (runFrom s (fs.map LoopEvent.readOk)) g h1run h1ex
    have h2run : (step (runFrom s (fs.map LoopEvent.readOk))
        (LoopEvent.readOk g)).running = true := by rw [e1]; exact h1run
    have h2ex : (step (runFrom s (fs.map LoopEvent.readOk))
        (LoopEvent.readOk g)).exited = false := by rw [e1]; exact h1ex
    have e2 := step_readOk_fields _ f h2run h2ex
    have hrun2 : runFrom (runFrom s (fs.map LoopEvent.readOk))
        [LoopEvent.readOk g, LoopEvent.readOk f]
          = step (step (runFrom s (fs.map LoopEvent.readOk))
              (LoopEvent.readOk g)) (LoopEvent.readOk f) := rfl
    have hqueue : (runFrom s ((fs ++ [g, f]).map LoopEvent.readOk)).frame_queue
        = [g, f] := by
      rw [hsplit, hrun2, e2, e1]
      exact pushFrame_pushFrame _ h1len g f
    have hget : ∀ t : CameraThread, t.frame_queue = [g, f] → t.get_frame.1 = some g := by
      intro t ht
      simp [CameraThread.get_frame, ht]
    have hlatest : (runFrom s ((fs ++ [g, f]).map LoopEvent.readOk)).latest_frame
        = some f := by
      rw [hsplit, hrun2, e2]
    exact ⟨hqueue, hget _ hqueue, hlatest⟩
  · intro t ht
    simp [CameraThread.get_frame, ht]

/-- Concrete instantiation of the amended pop-latest theorem at a freshly
connected thread and the push sequence 1, 2, 3. -/
theorem claim2_pop_latest_amended_witness :
    (runFrom (runStart 0 okCfg true)
      (([1] ++ [2, 3]).map LoopEvent.readOk)).get_frame.1 = some 2 ∧
    (runFrom (runStart 0 okCfg true)
      (([1] ++ [2, 3]).map LoopEvent.readOk)).latest_frame = some 3 :=
  have h := claim2_pop_latest_amended (runStart 0 okCfg true)
    (by decide) (by decide) (by decide) [1] 2 3
  ⟨h.1.2.1, h.1.2.2⟩

/-- No step ever turns the `connected` flag on: only the prologue of `run`
does, right after a successful open. -/
theorem step_connected_mono (s : CameraThread) (ev : LoopEvent)
    (h : (step s ev).connected = true) : s.connected = true := by
  obtain ⟨i, cfg, run, con, q, lf, rf, op, rel, ex, sr⟩ := s
  cases ev with
  | pop =>
      cases q with
      | nil => simpa [step, CameraThread.get_frame] using h
      | cons a t => simpa [step, CameraThread.get_frame] using h
  | setStop => simpa [step] using h
  | readOk f =>
      cases ex <;> cases run <;>
        simpa [step, cleanup] using h
  | readFail =>
      cases ex <;> cases run <;>
        first
          | simpa [step, cleanup] using h
          | (revert h
             simp only [step, cleanup, Bool.false_eq_true, if_true, if_false,
               ite_true, ite_false]
             split <;> simp)
  | readErr =>
      cases ex <;> cases run <;> simpa [step, cleanup] using h

/-- A trace can only preserve or clear `connected`, never set it. -/
theorem runFrom_connected_mono (evs : List LoopEvent) (s : CameraThread)
    (h : (runFrom s evs).connected = true) : s.connected = true := by
  induction evs generalizing s with
  | nil => exact h
  | cons ev rest ih => exact step_connected_mono s ev (ih (step s ev) h)

/-- No step changes the ghost `opened` flag. -/
theorem step_opened_eq (s : CameraThread) (ev : LoopEvent) :
    (step s ev).opened = s.opened := by
  obtain ⟨i, cfg, run, con, q, lf, rf, op, rel, ex, sr⟩ := s
  cases ev with
  | pop =>
      cases q with
      | nil => simp [step, CameraThread.get_frame]
      | cons a t => simp [step, CameraThread.get_frame]
  | setStop => simp [step]
  | readOk f => cases ex <;> cases run <;> simp [step, cleanup]
  | readFail =>
      cases ex <;> cases run <;>
        (simp only [step, cleanup, Bool.false_eq_true, if_true, if_false,
          ite_true, ite_false]) <;>
        first
          | rfl
          | (split <;> rfl)
  | readErr => cases ex <;> cases run <;> simp [step, cleanup]

/-- The ghost `opened` flag is constant along any trace. -/
theorem runFrom_opened_eq (evs : List LoopEvent) (s : CameraThread) :
    (runFrom s evs).opened = s.opened := by
  induction evs generalizing s with
  | nil => rfl
  | cons ev rest ih =>
      rw [runFrom_cons, ih, step_opened_eq]

/-- Claim C3 counterexample: immediately after a successful open — before a
single read has happened — `connected` is already true while the count of
successful reads since the connection attempt is 0, and it remains so after
a first failed read. -/
theorem claim3_connected_without_read_counterexample :
    (runThread 0 okCfg true []).connected = true ∧
    (runThread 0 okCfg true []).success_reads = 0 ∧
    (runThread 0 okCfg true [LoopEvent.readFail]).connected = true ∧
    (runThread 0 okCfg true [LoopEvent.readFail]).success_reads = 0 := by
  decide

/-- Claim C3 amended: whenever `connected` is true, the single open attempt
of the loop has succeeded (connected is set right after a successful open,
before any read; no step can set it). -/
theorem claim3_connected_amended (i : Nat) (cfg : CameraConfig)
    (openOk : Bool) (evs : List LoopEvent)
    (h : (runThread i cfg openOk evs).connected = true) :
    openOk = true ∧ (runThread i cfg openOk evs).opened = true := by
  have hstart : (runStart i cfg openOk).connected = true :=
    runFrom_connected_mono evs _ h
  have hopen : openOk = true ∧ (runStart i cfg openOk).opened = true := by
    revert hstart
    unfold runStart
    split_ifs with h1 h2 h3
    · simp [CameraThread.init]
    · intro hcon
      exact ⟨h3, rfl⟩
    · simp [CameraThread.init]
    · simp [CameraThread.init]
  refine ⟨hopen.1, ?_⟩
  rw [runThread, runFrom_opened_eq]
  exact hopen.2

/-- Concrete instantiation of the amended connected-implies-opened theorem
at a freshly connected RTSP thread. -/
theorem claim3_connected_amended_witness :
    (runThread 0 okCfg true []).opened = true :=
  (claim3_connected_amended 0 okCfg true [] (by decide)).2

/-- Claim C5: the supervisor `get_frame` returns the indexed thread, own
`get_frame` result exactly when a thread exists for the index and its
`connected` flag is true, and `None` otherwise; `is_camera_connected` is
false whenever no thread exists for the index. -/
theorem claim5_supervisor_accessors (m : CameraManager) (i : Nat) :
    (∀ t : CameraThread, lookupIdx m.camera_threads i = some t →
      CameraManager.get_frame m i
        = (if t.connected = true then t.get_frame.1 else none)) ∧
    (lookupIdx m.camera_threads i = none →
      CameraManager.get_frame m i = none ∧
      CameraManager.is_camera_connected m i = false) := by
  constructor
  · intro t ht
    simp [CameraManager.get_frame, ht]
  · intro h
    simp [CameraManager.get_frame, CameraManager.is_camera_connected, h]

/-- Concrete instantiation of the supervisor-accessor theorem: a connected
frame of a connected thread is served, and a missing index reports disconnected. -/
theorem claim5_supervisor_accessors_witness :
    CameraManager.get_frame
      ⟨[(0, step (runStart 0 okCfg true) (LoopEvent.readOk 7))]⟩ 0 = some 7 ∧
    CameraManager.is_camera_connected
      ⟨[(0, step (runStart 0 okCfg true) (LoopEvent.readOk 7))]⟩ 3 = false :=
  ⟨by
    rw [(claim5_supervisor_accessors
      ⟨[(0, step (runStart 0 okCfg true) (LoopEvent.readOk 7))]⟩ 0).1
      (step (runStart 0 okCfg true) (LoopEvent.readOk 7)) (by decide)]
    decide,
   ((claim5_supervisor_accessors
      ⟨[(0, step (runStart 0 okCfg true) (LoopEvent.readOk 7))]⟩ 3).2
      (by decide)).2⟩

/-- Lookup misses a filtered index map whenever the key is absent from the
underlying index list. -/
theorem lookupIdx_filterMap_not_mem {β : Type} (p : Nat → Bool) (f : Nat → β)
    (l : List Nat) (i : Nat) (h : i ∉ l) :
    lookupIdx (l.filterMap (fun j => if p j then some (j, f j) else none)) i
      = none := by
  induction l with
  | nil => rfl
  | cons a t ih =>
      have hia : i ≠ a := fun e => h (e ▸ List.mem_cons_self a t)
      have hit : i ∉ t := fun hm => h (List.mem_cons_of_mem a hm)
      cases hp : p a with
      | false =>
          simp only [List.filterMap_cons, hp, Bool.false_eq_true, ite_false]
          exact ih hit
      | true =>
          simpa [List.filterMap_cons, hp, lookupIdx, hia] using ih hit

/-- Lookup in a filtered index map built over a duplicate-free index list:
present exactly when the predicate holds at the key. -/
theorem lookupIdx_filterMap_mem {β : Type} (p : Nat → Bool) (f : Nat → β)
    (l : List Nat) (i : Nat) (hmem : i ∈ l) (hnd : l.Nodup) :
    lookupIdx (l.filterMap (fun j => if p j then some (j, f j) else none)) i
      = if p i then some (f i) else none := by
  induction l with
  | nil => cases hmem
  | cons a t ih =>
      rcases List.mem_cons.mp hmem with rfl | hmem2
      · have hit : i ∉ t := (List.nodup_cons.mp hnd).1
        cases hp : p i with
        | false =>
            simp only [List.filterMap_cons, hp, Bool.false_eq_true, ite_false]
            simpa [hp] using lookupIdx_filterMap_not_mem p f t i hit
        | true =>
            simp [List.filterMap_cons, hp, lookupIdx]
      · have hia : i ≠ a := by
          rintro rfl
          exact (List.nodup_cons.mp hnd).1 hmem2
        have hnd2 : t.Nodup := (List.nodup_cons.mp hnd).2
        cases hp : p a with
        | false =>
            simp only [List.filterMap_cons, hp, Bool.false_eq_true, ite_false]
            exact ih hmem2 hnd2
        | true =>
            simpa [List.filterMap_cons, hp, lookupIdx, hia] using ih hmem2 hnd2

/-- Claim C6: after `reload_config`, every previously held thread has been
stopped; each index below 48 whose stored configuration is enabled maps to a
freshly initialised thread carrying that configuration, and each index whose
stored configuration is disabled has no thread and reports disconnected. -/
theorem claim6_reload_rebuilds (m : CameraManager) (cams : List CameraConfig) :
    (∀ p : Nat × CameraThread, p ∈ (reload_config m cams).2 →
      p.2.running = false) ∧
    (∀ i : Nat, i < 48 →
      ((get_camera_config cams i).enabled = true →
        lookupIdx (reload_config m cams).1.camera_threads i
          = some (CameraThread.init i (get_camera_config cams i))) ∧
      ((get_camera_config cams i).enabled = false →
        lookupIdx (reload_config m cams).1.camera_threads i = none ∧
        CameraManager.is_camera_connected (reload_config m cams).1 i = false)) := by
  constructor
  · intro p hp
    simp only [reload_config, stop_all_cameras, List.mem_map] at hp
    obtain ⟨q, hq, hpq⟩ := hp
    rw [← hpq]
    rfl
  · intro i hi
    have hmem : i ∈ List.range 48 := List.mem_range.mpr hi
    have hnd : (List.range 48).Nodup := List.nodup_range 48
    have key := lookupIdx_filterMap_mem
      (fun j => (get_camera_config cams j).enabled)
      (fun j => CameraThread.init j (get_camera_config cams j))
      (List.range 48) i hmem hnd
    have hthreads : (reload_config m cams).1.camera_threads
        = (List.range 48).filterMap (fun j =>
            if (get_camera_config cams j).enabled then
              some (j, CameraThread.init j (get_camera_config cams j))
            else none) := rfl
    constructor
    · intro he
      rw [hthreads, key, if_pos he]
    · intro he
      have hnone : lookupIdx (reload_config m cams).1.camera_threads i = none := by
        rw [hthreads, key, if_neg (by simp [he])]
      refine ⟨hnone, ?_⟩
      simp [CameraManager.is_camera_connected, hnone]

/-- Concrete instantiation of the reload theorem: with only slot 0 enabled,
reload installs a fresh thread at index 0 and leaves index 5 absent and
disconnected, while the previously held thread is stopped. -/
theorem claim6_reload_rebuilds_witness :
    lookupIdx (reload_config ⟨[(3, CameraThread.init 3 okCfg)]⟩
      [okCfg]).1.camera_threads 0 = some (CameraThread.init 0 okCfg) ∧
    lookupIdx (reload_config ⟨[(3, CameraThread.init 3 okCfg)]⟩
      [okCfg]).1.camera_threads 5 = none ∧
    (∀ p : Nat × CameraThread,
      p ∈ (reload_config ⟨[(3, CameraThread.init 3 okCfg)]⟩ [okCfg]).2 →
      p.2.running = false) :=
  ⟨((claim6_reload_rebuilds ⟨[(3, CameraThread.init 3 okCfg)]⟩ [okCfg]).2 0
      (by decide)).1 (by decide),
   (((claim6_reload_rebuilds ⟨[(3, CameraThread.init 3 okCfg)]⟩ [okCfg]).2 5
      (by decide)).2 (by decide)).1,
   (claim6_reload_rebuilds ⟨[(3, CameraThread.init 3 okCfg)]⟩ [okCfg]).1⟩

/-- An enabled network configuration whose target URL is empty. -/
def emptyUrlCfg : CameraConfig :=
  { enabled := true, source_type := "rtsp", url := "", device := 0,
    name := "Camera 1" }

/-- Claim C7 counterexample: with an enabled network slot whose URL is empty,
`reload_config` does create a Capture Loop for that slot — the empty-target
error is not rejected at the supervisor boundary. -/
theorem claim7_boundary_counterexample :
    lookupIdx (reload_config ⟨[]⟩ [emptyUrlCfg]).1.camera_threads 0
      = some (CameraThread.init 0 emptyUrlCfg) := by
  decide

/-- Once the loop has exited, no event ever clears the `exited` flag. -/
theorem step_exited_preserved (s : CameraThread) (ev : LoopEvent)
    (h : s.exited = true) : (step s ev).exited = true := by
  obtain ⟨j, c, run, con, q, lf, rf, op, rel, ex, sr⟩ := s
  simp only at h
  subst h
  cases ev with
  | pop =>
      cases q with
      | nil => rfl
      | cons a u => rfl
  | setStop => rfl
  | readOk f => rfl
  | readFail => rfl
  | readErr => rfl

/-- The `exited` flag stays set along any trace. -/
theorem runFrom_exited_preserved (evs : List LoopEvent) (s : CameraThread)
    (h : s.exited = true) : (runFrom s evs).exited = true := by
  induction evs generalizing s with
  | nil => exact h
  | cons ev rest ih => exact ih (step s ev) (step_exited_preserved s ev h)

/-- Claim C7 amended: an out-of-range index is rejected at the configuration
boundary (the store returns a disabled default, so no loop is started for
it), while an empty network target is not: its loop is created and entered,
and the loop itself detects the empty URL and exits at once — never opening
a connection and never becoming connected. -/
theorem claim7_boundary_amended :
    (∀ (cams : List CameraConfig) (i : Nat), cams.length ≤ i →
      (get_camera_config cams i).enabled = false) ∧
    (∀ (i : Nat) (cfg : CameraConfig) (openOk : Bool) (evs : List LoopEvent),
      cfg.source_type = "rtsp" → cfg.url = "" →
      (runThread i cfg openOk evs).connected = false ∧
      (runThread i cfg openOk evs).opened = false ∧
      (runThread i cfg openOk evs).exited = true) := by
  constructor
  · intro cams i hlen
    unfold get_camera_config
    rw [List.getElem?_eq_none hlen]
    rfl
  · intro i cfg openOk evs hrt hurl
    have hstart : (runStart i cfg openOk).connected = false ∧
        (runStart i cfg openOk).opened = false ∧
        (runStart i cfg openOk).exited = true := by
      unfold runStart
      split_ifs with h1 h2 h3
      · exact ⟨rfl, rfl, rfl⟩
      · exact absurd ⟨hrt, hurl⟩ h2
      · exact absurd ⟨hrt, hurl⟩ h2
      · exact ⟨rfl, rfl, rfl⟩
    refine ⟨?_, ?_, ?_⟩
    · cases hc : (runThread i cfg openOk evs).connected
      · rfl
      · exact absurd (runFrom_connected_mono evs _ hc)
          (by rw [hstart.1]; simp)
    · rw [runThread, runFrom_opened_eq]
      exact hstart.2.1
    · exact runFrom_exited_preserved evs _ hstart.2.2

/-- Concrete instantiation of the amended boundary theorem: an out-of-range
index yields a disabled configuration, and a loop handed an empty RTSP URL
never connects. -/
theorem claim7_boundary_amended_witness :
    (get_camera_config [] 7).enabled = false ∧
    (runThread 0 emptyUrlCfg true [LoopEvent.readOk 4]).connected = false :=
  ⟨claim7_boundary_amended.1 [] 7 (by decide),
   (claim7_boundary_amended.2 0 emptyUrlCfg true [LoopEvent.readOk 4]
      (by decide) (by decide)).1⟩

/-- Outcome of `ConfigManager.test_camera_connection`: the returned
success/reason pair plus ghost observations — whether a capture handle was
created, whether it was released before returning, and how many reads were
attempted. -/
structure ProbeResult where
  ok : Bool
  reason : String
  capCreated : Bool
  capReleased : Bool
  reads : Nat
deriving DecidableEq

/-- Places inside the single try block of the probe where an exception can be
raised: the `cv2.VideoCapture` constructor, `cap.isOpened()`, `cap.read()`,
or `cap.release()`.  The body has no finally clause, so a raise at any point
after the constructor jumps to the except handler with the handle created
but not released. -/
inductive ProbePoint where
  | atCtor
  | atIsOpened
  | atRead
  | atRelease
deriving DecidableEq

/-- Probe `ConfigManager.test_camera_connection`: reject an empty RTSP URL
without opening anything; otherwise construct the capture once, test
`cap.isOpened()` (`openOk`), read once only when the open succeeded
(`readOk` models `ret`), release, and report.  The `exn` input places one
exception at a point of the body; if execution reaches that point the
exception is raised there and caught by the outer except, which returns a
failure result — skipping the release when the handle already exists, since
the source has no finally clause.  A raise placed at `cap.read()` fires only
when the open succeeded, because the read is guarded by `if success`. -/
def test_camera_connection (cfg : CameraConfig)
    (exn : Option (ProbePoint × String)) (openOk readOk : Bool) : ProbeResult :=
  if cfg.source_type = "rtsp" then
    if cfg.url = "" then
      { ok := false, reason := "RTSP URL is empty",
        capCreated := false, capReleased := false, reads := 0 }
    else
      match exn with
      | some (.atCtor, e) =>
          { ok := false, reason := "Error testing connection: " ++ e,
            capCreated := false, capReleased := false, reads := 0 }
      | some (.atIsOpened, e) =>
          { ok := false, reason := "Error testing connection: " ++ e,
            capCreated := true, capReleased := false, reads := 0 }
      | some (.atRead, e) =>
          if openOk then
            { ok := false, reason := "Error testing connection: " ++ e,
              capCreated := true, capReleased := false, reads := 1 }
          else
            { ok := false, reason := "Failed to connect to RTSP stream",
              capCreated := true, capReleased := true, reads := 0 }
      | some (.atRelease, e) =>
          { ok := false, reason := "Error testing connection: " ++ e,
            capCreated := true, capReleased := false,
            reads := if openOk then 1 else 0 }
      | none =>
          if openOk then
            if readOk then
              { ok := true, reason := "Connection successful",
                capCreated := true, capReleased := true, reads := 1 }
            else
              { ok := false, reason := "Failed to connect to RTSP stream",
                capCreated := true, capReleased := true, reads := 1 }
          else
            { ok := false, reason := "Failed to connect to RTSP stream",
              capCreated := true, capReleased := true, reads := 0 }
  else
    match exn with
    | some (.atCtor, e) =>
        { ok := false, reason := "Error testing connection: " ++ e,
          capCreated := false, capReleased := false, reads := 0 }
    | some (.atIsOpened, e) =>
        { ok := false, reason := "Error testing connection: " ++ e,
          capCreated := true, capReleased := false, reads := 0 }
    | some (.atRead, e) =>
        if openOk then
          { ok := false, reason := "Error testing connection: " ++ e,
            capCreated := true, capReleased := false, reads := 1 }
        else
          { ok := false,
            reason := "Failed to connect to local camera device "
              ++ toString cfg.device,
            capCreated := true, capReleased := true, reads := 0 }
    | some (.atRelease, e) =>
        { ok := false, reason := "Error testing connection: " ++ e,
          capCreated := true, capReleased := false,
          reads := if openOk then 1 else 0 }
    | none =>
        if openOk then
          if readOk then
            { ok := true, reason := "Connection successful",
              capCreated := true, capReleased := true, reads := 1 }
          else
            { ok := false,
              reason := "Failed to connect to local camera device "
                ++ toString cfg.device,
              capCreated := true, capReleased := true, reads := 1 }
        else
          { ok := false,
            reason := "Failed to connect to local camera device "
              ++ toString cfg.device,
            capCreated := true, capReleased := true, reads := 0 }

/-- Claim C9 counterexample: with a valid RTSP descriptor whose open
succeeds, an exception raised during `cap.read()` is caught and returned as
a failure — but the created capture handle is NOT released before returning,
because the try block has no finally clause; this refutes the release part
of the claim under its own every-internal-exception fault model. -/
theorem claim9_probe_counterexample :
    (test_camera_connection okCfg (some (ProbePoint.atRead, "read error"))
      true true).capCreated = true ∧
    (test_camera_connection okCfg (some (ProbePoint.atRead, "read error"))
      true true).capReleased = false ∧
    (test_camera_connection okCfg (some (ProbePoint.atRead, "read error"))
      true true).ok = false ∧
    (test_camera_connection okCfg (some (ProbePoint.atRead, "read error"))
      true true).reason = "Error testing connection: read error" := by
  decide

/-- Claim C9 amended: the probe attempts at most one read, succeeds exactly
when no exception fires and both the open and the single read succeed, and
never raises — every internal exception yields a failure result.  The
capture handle is released before returning on every exception-free path,
but an exception raised after the handle is created (at `cap.isOpened()`,
`cap.read()` or `cap.release()` — the body has no finally clause) skips the
release, leaving the handle unreleased. -/
theorem claim9_probe_amended (cfg : CameraConfig)
    (exn : Option (ProbePoint × String)) (openOk readOk : Bool) :
    ((test_camera_connection cfg exn openOk readOk).ok = true ↔
      (exn = none ∧ openOk = true ∧ readOk = true ∧
        ¬(cfg.source_type = "rtsp" ∧ cfg.url = ""))) ∧
    (test_camera_connection cfg exn openOk readOk).reads ≤ 1 ∧
    (exn = none →
      (test_camera_connection cfg exn openOk readOk).capCreated = true →
      (test_camera_connection cfg exn openOk readOk).capReleased = true) ∧
    (∀ pt e, exn = some (pt, e) →
      (test_camera_connection cfg exn openOk readOk).ok = false) ∧
    (∀ e, exn = some (ProbePoint.atRead, e) → openOk = true →
      ¬(cfg.source_type = "rtsp" ∧ cfg.url = "") →
      (test_camera_connection cfg exn openOk readOk).capCreated = true ∧
      (test_camera_connection cfg exn openOk readOk).capReleased = false) := by
  unfold test_camera_connection
  rcases exn with _ | ⟨pt, e⟩
  · cases openOk <;> cases readOk <;>
      by_cases hrt : cfg.source_type = "rtsp" <;>
      by_cases hurl : cfg.url = "" <;>
      simp [hrt, hurl]
  · cases pt <;> cases openOk <;> cases readOk <;>
      by_cases hrt : cfg.source_type = "rtsp" <;>
      by_cases hurl : cfg.url = "" <;>
      simp [hrt, hurl]

/-- Concrete instantiation of the amended probe theorem: an exception-free
successful probe releases its handle, and an exception placed at the read
leaves the handle unreleased. -/
theorem claim9_probe_amended_witness :
    (test_camera_connection okCfg none true true).ok = true ∧
    (test_camera_connection okCfg none true true).capReleased = true ∧
    (test_camera_connection okCfg (some (ProbePoint.atRead, "boom"))
      true true).capReleased = false :=
  have h1 := claim9_probe_amended okCfg none true true
  have h2 := claim9_probe_amended okCfg (some (ProbePoint.atRead, "boom")) true true
  ⟨h1.1.mpr ⟨rfl, rfl, rfl, by decide⟩,
   h1.2.2.1 rfl (by decide),
   (h2.2.2.2.2 "boom" rfl rfl (by decide)).2⟩

end CamersDisplay
